import Mathlib

/-
Verification development for the EV3UartGenerator framing library
(src/framing.hpp, src/framing.cpp, src/magics.hpp).

Modelling conventions:
* `uint8_t` values are `Nat`s; a reduction `% 256` or a mask (`&&& 0x07`,
  `&&& 0x3f`, ...) appears exactly where the C source converts or masks.
* A byte buffer is a `List Nat`; the encoders return the exact list of
  bytes they write starting at `dest`, in order.
* A `const char*` / `const uint8_t*` payload pointer is an
  `Option (List Nat)`: `none` models a null pointer, `some s` models a
  pointer to the bytes `s` (for strings, the characters before the
  terminating NUL, so `strlen` is `s.length`).
* Fallible encoders return a `FrameResult`: `err` models `return -1`
  with nothing written, `ok n bs` models writing the bytes `bs` and
  returning `n`, and `ub` marks the executions where the C source hands
  a null pointer (or a too-short source buffer) to `memcpy`, which is
  undefined behavior rather than any defined return value.
* Floats (`frame_info_message_span`) are modelled by their 32-bit
  IEEE-754 bit patterns; the `memcpy` shuffle in the source is a byte
  identity on that pattern, and `htole32` produces the little-endian
  byte sequence that lands in the buffer.
-/

namespace EV3UartGenerator

namespace Magics

/-- Base magic value for SYS messages (`Magics::SYS::SYS_BASE`). -/
def SYS_BASE : Nat := 0x00

/-- Sync message magic value (`Magics::SYS::SYNC`). -/
def SYS_SYNC : Nat := 0x00

/-- ACK message magic value (`Magics::SYS::ACK`). -/
def SYS_ACK : Nat := 0x04

/-- Base magic value for CMD messages (`Magics::CMD::CMD_BASE`). -/
def CMD_BASE : Nat := 0x40

/-- Type message magic value (`Magics::CMD::TYPE`). -/
def CMD_TYPE : Nat := 0x00

/-- Modes message magic value (`Magics::CMD::MODES`). -/
def CMD_MODES : Nat := 0x01

/-- Speed message magic value (`Magics::CMD::SPEED`). -/
def CMD_SPEED : Nat := 0x02

/-- Select message magic value (`Magics::CMD::SELECT`). -/
def CMD_SELECT : Nat := 0x03

/-- Write message magic value (`Magics::CMD::WRITE`). -/
def CMD_WRITE : Nat := 0x04

/-- Base magic value for INFO messages (`Magics::INFO::INFO_BASE`). -/
def INFO_BASE : Nat := 0x80

/-- Base magic value for DATA messages (`Magics::DATA::DATA_BASE`). -/
def DATA_BASE : Nat := 0xc0

end Magics

namespace Framing

/-- Minimum size of the user-provided destination buffer, in bytes
(`Framing::BUFFER_MIN`). -/
def BUFFER_MIN : Nat := 0x23

/-- Maximum payload size towards the EV3 (`Framing::PAYLOAD_SENSOR_TO_EV3_MAX`). -/
def PAYLOAD_SENSOR_TO_EV3_MAX : Nat := 0x20

/-- Maximum payload size from the EV3 to the sensor
(`Framing::PAYLOAD_EV3_TO_SENSOR_MAX`). -/
def PAYLOAD_EV3_TO_SENSOR_MAX : Nat := 0x18

/-- Minimum payload size in either direction (`Framing::PAYLOAD_MIN`). -/
def PAYLOAD_MIN : Nat := 0x01

/-- Maximum length of a symbol string (`Framing::SYMBOL_MAX`). -/
def SYMBOL_MAX : Nat := 0x08

/-- Fuel-bounded floor of the base-2 logarithm: `log2FloorAux fuel n` is
`⌊log2 n⌋` for `1 ≤ n < 2 ^ fuel`.  Structural recursion on the fuel keeps
the definition kernel-reducible. -/
def log2FloorAux : Nat → Nat → Nat
  | 0, _ => 0
  | fuel + 1, n => if n < 2 then 0 else log2FloorAux fuel (n / 2) + 1

/-- Count of leading zero bits of a nonzero value in a 32-bit word, the
semantics of GCC's `__builtin_clz` used by `Framing::log2` (undefined for 0,
like the builtin). -/
def clz32 (v : Nat) : Nat := 31 - log2FloorAux 32 v

/-- Integer log base 2 of `val`, rounded up (`Framing::log2`):
`(0x1f - __builtin_clz(val)) + (val - (0x01 << (0x1f - __builtin_clz(val))) != 0 ? 1 : 0)`. -/
def log2 (val : Nat) : Nat :=
  (0x1f - clz32 val) +
    (if val - (0x01 <<< (0x1f - clz32 val)) ≠ 0 then 1 else 0)

/-- Value OR'd into the message type byte to encode the payload length
(`Framing::length_code`): `log2(len) << 0x03`. -/
def length_code (len : Nat) : Nat := log2 len <<< 0x03

/-- Checksum of the first `len` bytes of `buf` (`Framing::checksum`): an
accumulator seeded with `0xff` is XOR'd with `buf[i]` for `i = 0, …, len-1`.
The function is total; the source reads `buf[i]` so callers keep
`len ≤ buf.length`. -/
def checksum (buf : List Nat) (len : Nat) : Nat :=
  (List.range len).foldl (fun acc i => acc ^^^ buf.getD i 0) 0xff

/-- Number of padding bytes computed inside `Framing::insert_padding`:
`(0x01 << log2(len)) - len`, narrowed to `uint8_t`. -/
def paddingSize (len : Nat) : Nat := ((0x01 <<< log2 len) - len) % 256

/-- Bytes written by `Framing::insert_padding`: `paddingSize len` zero bytes
(the function's return value is the count, i.e. the length of this list). -/
def insert_padding (len : Nat) : List Nat :=
  List.replicate (paddingSize len) 0x00

/-- Little-endian byte sequence of the low 32 bits of `v`: the four bytes
`memcpy`'d into the buffer after `SimpleEndian::htole32`. -/
def htole32 (v : Nat) : List Nat :=
  [v % 256, v / 256 % 256, v / 65536 % 256, v / 16777216 % 256]

/-- Length the source computes for a possibly-null C string argument:
`ptr != nullptr ? strlen(ptr) : 0`. -/
def strlen : Option (List Nat) → Nat
  | none => 0
  | some s => s.length

/-- Result of a fallible encoder call. `err` is `return -1` with nothing
written; `ok n bs` is a successful call that wrote exactly the bytes `bs`
starting at `dest` and returned `n`; `ub` marks executions whose behavior
the C source leaves undefined (a `memcpy` from a null or too-short source),
which in particular do not return `-1`. -/
inductive FrameResult where
  | err : FrameResult
  | ub : FrameResult
  | ok : Nat → List Nat → FrameResult
  deriving DecidableEq, Repr

/-- Value returned to the caller, as the C `int8_t`: `-1` for a validation
failure, the byte count for a success, and nothing for an undefined
execution. -/
def FrameResult.ret : FrameResult → Option Int
  | .err => some (-1)
  | .ub => none
  | .ok n _ => some (n : Int)

/-- Bytes written to the destination buffer: none on a validation failure. -/
def FrameResult.bytes : FrameResult → List Nat
  | .err => []
  | .ub => []
  | .ok _ bs => bs

/-- Encoder `Framing::frame_sys_message`: writes the single byte
`sys_type | SYS_BASE` and returns 1. -/
def frame_sys_message (sys_type : Nat) : Nat × List Nat :=
  (0x01, [(sys_type % 256) ||| Magics.SYS_BASE])

/-- Encoder `Framing::frame_cmd_type_message`: tag byte, the type byte, and
the checksum over the preceding 2 bytes; returns 3. -/
def frame_cmd_type_message (type : Nat) : Nat × List Nat :=
  let body := [Magics.CMD_BASE ||| Magics.CMD_TYPE ||| length_code 0x01,
               type % 256]
  (0x03, body ++ [checksum body 0x02])

/-- Encoder `Framing::frame_cmd_modes_message`: tag byte, the two masked
mode-count bytes, and the checksum over the preceding 3 bytes; returns 4. -/
def frame_cmd_modes_message (modes modes_available : Nat) : Nat × List Nat :=
  let body := [Magics.CMD_BASE ||| Magics.CMD_MODES ||| length_code 0x02,
               0x07 &&& modes,
               0x07 &&& modes_available]
  (0x04, body ++ [checksum body 0x03])

/-- Encoder `Framing::frame_cmd_speed_message`: tag byte, the 4 little-endian
speed bytes, and the checksum over the preceding 5 bytes; returns 6. -/
def frame_cmd_speed_message (speed : Nat) : Nat × List Nat :=
  let body := (Magics.CMD_BASE ||| Magics.CMD_SPEED ||| length_code 0x04) ::
    htole32 (speed % 4294967296)
  (0x06, body ++ [checksum body 0x05])

/-- Encoder `Framing::frame_cmd_select_message`: tag byte, the masked mode
byte, and the checksum over the preceding 2 bytes; returns 3. -/
def frame_cmd_select_message (mode : Nat) : Nat × List Nat :=
  let body := [Magics.CMD_BASE ||| Magics.CMD_SELECT ||| length_code 0x01,
               0x07 &&& mode]
  (0x03, body ++ [checksum body 0x02])

/-- Encoder `Framing::frame_cmd_write_message`: rejects `len` outside
`[PAYLOAD_MIN, PAYLOAD_EV3_TO_SENSOR_MAX]` with `-1`; otherwise `memcpy`s
`len` bytes from `data` (undefined when `data` is null or shorter than
`len`), pads, appends the checksum over the `0x01 + len + padding`
preceding bytes and returns `0x02 + len + padding`. -/
def frame_cmd_write_message (data : Option (List Nat)) (len : Nat) :
    FrameResult :=
  if len < PAYLOAD_MIN ∨ PAYLOAD_EV3_TO_SENSOR_MAX < len then
    .err
  else
    match data with
    | none => .ub
    | some d =>
      if d.length < len then .ub
      else
        let body := (Magics.CMD_BASE ||| Magics.CMD_WRITE ||| length_code len) ::
          (d.take len ++ insert_padding len)
        .ok (0x02 + len + paddingSize len)
          (body ++ [checksum body (0x01 + len + paddingSize len)])

/-- Encoder `Framing::frame_info_message_name`: rejects a name whose
`strlen` (0 for a null pointer) is outside
`[PAYLOAD_MIN, PAYLOAD_SENSOR_TO_EV3_MAX]` with `-1`; otherwise writes the
tag byte, the INFO subtype byte `0x00`, the name bytes, padding and the
checksum over the `0x02 + name_length + padding` preceding bytes, returning
`0x03 + name_length + padding`. -/
def frame_info_message_name (mode : Nat) (name : Option (List Nat)) :
    FrameResult :=
  let name_length := strlen name
  if name_length < PAYLOAD_MIN ∨ PAYLOAD_SENSOR_TO_EV3_MAX < name_length then
    .err
  else
    let body := (Magics.INFO_BASE ||| (0x07 &&& mode) ||| length_code name_length) ::
      0x00 :: (name.getD [] ++ insert_padding name_length)
    .ok (0x03 + name_length + paddingSize name_length)
      (body ++ [checksum body (0x02 + name_length + paddingSize name_length)])

/-- Encoder `Framing::frame_info_message_span`: tag byte (length code for
the 8 payload bytes), the span-type byte, the two little-endian 4-byte
float bit patterns, and the checksum over the preceding 10 bytes; returns
11.  Floats are modelled by their IEEE-754 bit patterns. -/
def frame_info_message_span (mode span_type lower upper : Nat) :
    Nat × List Nat :=
  let body := (Magics.INFO_BASE ||| (0x07 &&& mode) ||| length_code (4 + 4)) ::
    (span_type % 256) ::
    (htole32 (lower % 4294967296) ++ htole32 (upper % 4294967296))
  (0x0b, body ++ [checksum body 0x0a])

/-- Encoder `Framing::frame_info_message_symbol`: rejects a symbol whose
`strlen` (0 for a null pointer) is outside `[PAYLOAD_MIN, SYMBOL_MAX]` with
`-1`; otherwise writes the tag byte with `length_code(0x08)` (length
hardcoded to 8), the INFO subtype byte `0x04`, the symbol bytes, exactly
`0x08 - symbol_length` zero bytes, and the checksum over the
`0x02 + symbol_length + padding` preceding bytes, returning
`0x03 + symbol_length + padding`. -/
def frame_info_message_symbol (mode : Nat) (symbol : Option (List Nat)) :
    FrameResult :=
  let symbol_length := strlen symbol
  if symbol_length < PAYLOAD_MIN ∨ SYMBOL_MAX < symbol_length then
    .err
  else
    let padding := 0x08 - symbol_length
    let body := (Magics.INFO_BASE ||| (0x07 &&& mode) ||| length_code 0x08) ::
      0x04 :: (symbol.getD [] ++ List.replicate padding 0x00)
    .ok (0x03 + symbol_length + padding)
      (body ++ [checksum body (0x02 + symbol_length + padding)])

/-- Encoder `Framing::frame_info_message_format`: tag byte, the INFO subtype
byte `0x80`, the four masked format bytes, and the checksum over the
preceding `0x02 + 0x04` bytes; returns 7. -/
def frame_info_message_format (mode elems data_type width decimals : Nat) :
    Nat × List Nat :=
  let body := [Magics.INFO_BASE ||| (0x07 &&& mode) ||| length_code 0x04,
               0x80,
               0x3f &&& elems,
               0x03 &&& data_type,
               0x0f &&& width,
               0x0f &&& decimals]
  (0x07, body ++ [checksum body (0x02 + 0x04)])

/-- Encoder `Framing::frame_data_message`: rejects `len` outside
`[PAYLOAD_MIN, PAYLOAD_SENSOR_TO_EV3_MAX]` with `-1`; otherwise `memcpy`s
`len` bytes from `data` (undefined when `data` is null or shorter than
`len`), pads, appends the checksum over the `0x01 + len + padding`
preceding bytes and returns `0x02 + len + padding`. -/
def frame_data_message (mode : Nat) (data : Option (List Nat)) (len : Nat) :
    FrameResult :=
  if len < PAYLOAD_MIN ∨ PAYLOAD_SENSOR_TO_EV3_MAX < len then
    .err
  else
    match data with
    | none => .ub
    | some d =>
      if d.length < len then .ub
      else
        let body := (Magics.DATA_BASE ||| (0x07 &&& mode) ||| length_code len) ::
          (d.take len ++ insert_padding len)
        .ok (0x02 + len + paddingSize len)
          (body ++ [checksum body (0x01 + len + paddingSize len)])

/-- Checksum of zero bytes is the seed `0xff`. -/
lemma checksum_zero (buf : List Nat) : checksum buf 0 = 0xff := rfl

/-- Extending the checksum by one byte XORs in that byte. -/
lemma checksum_succ (buf : List Nat) (n : Nat) :
    checksum buf (n + 1) = checksum buf n ^^^ buf.getD n 0 := by
  unfold checksum
  rw [List.range_succ, List.foldl_append]
  simp only [List.foldl_cons, List.foldl_nil]

/-- Checksum over the first `k` bytes is the left XOR-fold of those bytes
seeded with `0xff`. -/
lemma checksum_take (buf : List Nat) :
    ∀ k, k ≤ buf.length →
      checksum buf k = (buf.take k).foldl (fun a b => a ^^^ b) 0xff := by
  intro k
  induction k with
  | zero => intro _; rfl
  | succ n ih =>
    intro h
    have hn : n < buf.length := h
    rw [checksum_succ, ih (Nat.le_of_lt hn), List.take_succ,
      List.getElem?_eq_getElem hn, List.getD_eq_getElem?_getD,
      List.getElem?_eq_getElem hn]
    simp only [Option.toList_some, Option.getD_some, List.foldl_append,
      List.foldl_cons, List.foldl_nil]

/-- Checksum over a whole buffer is the XOR-fold of all its bytes. -/
lemma checksum_length (buf : List Nat) :
    checksum buf buf.length = buf.foldl (fun a b => a ^^^ b) 0xff := by
  rw [checksum_take buf buf.length (Nat.le_refl _), List.take_length]

/-- Folding XOR from an arbitrary seed factors the seed out. -/
lemma foldl_xor_init (l : List Nat) (a : Nat) :
    l.foldl (fun x y => x ^^^ y) a = a ^^^ l.foldl (fun x y => x ^^^ y) 0 := by
  induction l generalizing a with
  | nil => simp
  | cons b t ih =>
    simp only [List.foldl_cons]
    rw [ih (a ^^^ b), ih (0 ^^^ b), Nat.zero_xor, Nat.xor_assoc]

/-- Appending to a message the checksum over all of it makes the XOR of the
whole sequence `0xff`. -/
lemma xorfold_body_checksum (body : List Nat) (n : Nat) (h : n = body.length) :
    (body ++ [checksum body n]).foldl (fun x y => x ^^^ y) 0 = 0xff := by
  subst h
  rw [List.foldl_append, checksum_length, foldl_xor_init body 0xff]
  simp only [List.foldl_cons, List.foldl_nil]
  rw [Nat.xor_comm 0xff, ← Nat.xor_assoc, Nat.xor_self, Nat.zero_xor]

/-- Payload plus padding never exceeds 32 bytes for lengths in `[1, 32]`. -/
lemma len_pad_bound : ∀ len, len < 33 → 1 ≤ len → len + paddingSize len ≤ 32 := by
  decide

/-- Inversion for a successful `frame_cmd_write_message` call. -/
lemma frame_cmd_write_message_ok (data : Option (List Nat)) (len r : Nat)
    (bs : List Nat) (h : frame_cmd_write_message data len = .ok r bs) :
    ∃ d, data = some d ∧ PAYLOAD_MIN ≤ len ∧ len ≤ PAYLOAD_EV3_TO_SENSOR_MAX ∧
      len ≤ d.length ∧
      r = 0x02 + len + paddingSize len ∧
      bs = ((Magics.CMD_BASE ||| Magics.CMD_WRITE ||| length_code len) ::
          (d.take len ++ insert_padding len)) ++
        [checksum ((Magics.CMD_BASE ||| Magics.CMD_WRITE ||| length_code len) ::
          (d.take len ++ insert_padding len)) (0x01 + len + paddingSize len)] := by
  unfold frame_cmd_write_message at h
  split at h
  · exact absurd h (by simp)
  · rename_i hlen
    push_neg at hlen
    split at h
    · exact absurd h (by simp)
    · rename_i d
      split at h
      · exact absurd h (by simp)
      · rename_i hd
        simp only [FrameResult.ok.injEq] at h
        obtain ⟨hr, hbs⟩ := h
        exact ⟨d, rfl, hlen.1, hlen.2, Nat.le_of_not_lt hd, hr.symm, hbs.symm⟩

/-- Inversion for a successful `frame_data_message` call. -/
lemma frame_data_message_ok (mode : Nat) (data : Option (List Nat))
    (len r : Nat) (bs : List Nat)
    (h : frame_data_message mode data len = .ok r bs) :
    ∃ d, data = some d ∧ PAYLOAD_MIN ≤ len ∧ len ≤ PAYLOAD_SENSOR_TO_EV3_MAX ∧
      len ≤ d.length ∧
      r = 0x02 + len + paddingSize len ∧
      bs = ((Magics.DATA_BASE ||| (0x07 &&& mode) ||| length_code len) ::
          (d.take len ++ insert_padding len)) ++
        [checksum ((Magics.DATA_BASE ||| (0x07 &&& mode) ||| length_code len) ::
          (d.take len ++ insert_padding len)) (0x01 + len + paddingSize len)] := by
  unfold frame_data_message at h
  split at h
  · exact absurd h (by simp)
  · rename_i hlen
    push_neg at hlen
    split at h
    · exact absurd h (by simp)
    · rename_i d
      split at h
      · exact absurd h (by simp)
      · rename_i hd
        simp only [FrameResult.ok.injEq] at h
        obtain ⟨hr, hbs⟩ := h
        exact ⟨d, rfl, hlen.1, hlen.2, Nat.le_of_not_lt hd, hr.symm, hbs.symm⟩

/-- Inversion for a successful `frame_info_message_name` call. -/
lemma frame_info_message_name_ok (mode : Nat) (name : Option (List Nat))
    (r : Nat) (bs : List Nat)
    (h : frame_info_message_name mode name = .ok r bs) :
    ∃ s, name = some s ∧ PAYLOAD_MIN ≤ s.length ∧
      s.length ≤ PAYLOAD_SENSOR_TO_EV3_MAX ∧
      r = 0x03 + s.length + paddingSize s.length ∧
      bs = ((Magics.INFO_BASE ||| (0x07 &&& mode) ||| length_code s.length) ::
          0x00 :: (s ++ insert_padding s.length)) ++
        [checksum ((Magics.INFO_BASE ||| (0x07 &&& mode) ||| length_code s.length) ::
          0x00 :: (s ++ insert_padding s.length))
          (0x02 + s.length + paddingSize s.length)] := by
  unfold frame_info_message_name at h
  rcases name with _ | s
  · simp only [strlen] at h
    rw [if_pos (by simp [PAYLOAD_MIN])] at h
    exact absurd h (by simp)
  · simp only [strlen, Option.getD_some] at h
    by_cases hlen : s.length < PAYLOAD_MIN ∨ PAYLOAD_SENSOR_TO_EV3_MAX < s.length
    · rw [if_pos hlen] at h
      exact absurd h (by simp)
    · rw [if_neg hlen] at h
      push_neg at hlen
      simp only [FrameResult.ok.injEq] at h
      obtain ⟨hr, hbs⟩ := h
      exact ⟨s, rfl, hlen.1, hlen.2, hr.symm, hbs.symm⟩

/-- Inversion for a successful `frame_info_message_symbol` call. -/
lemma frame_info_message_symbol_ok (mode : Nat) (symbol : Option (List Nat))
    (r : Nat) (bs : List Nat)
    (h : frame_info_message_symbol mode symbol = .ok r bs) :
    ∃ s, symbol = some s ∧ PAYLOAD_MIN ≤ s.length ∧ s.length ≤ SYMBOL_MAX ∧
      r = 0x03 + s.length + (0x08 - s.length) ∧
      bs = ((Magics.INFO_BASE ||| (0x07 &&& mode) ||| length_code 0x08) ::
          0x04 :: (s ++ List.replicate (0x08 - s.length) 0x00)) ++
        [checksum ((Magics.INFO_BASE ||| (0x07 &&& mode) ||| length_code 0x08) ::
          0x04 :: (s ++ List.replicate (0x08 - s.length) 0x00))
          (0x02 + s.length + (0x08 - s.length))] := by
  unfold frame_info_message_symbol at h
  rcases symbol with _ | s
  · simp only [strlen] at h
    rw [if_pos (by simp [PAYLOAD_MIN])] at h
    exact absurd h (by simp)
  · simp only [strlen, Option.getD_some] at h
    by_cases hlen : s.length < PAYLOAD_MIN ∨ SYMBOL_MAX < s.length
    · rw [if_pos hlen] at h
      exact absurd h (by simp)
    · rw [if_neg hlen] at h
      push_neg at hlen
      simp only [FrameResult.ok.injEq] at h
      obtain ⟨hr, hbs⟩ := h
      exact ⟨s, rfl, hlen.1, hlen.2, hr.symm, hbs.symm⟩

/-- Characterization of the error return of `frame_cmd_write_message`. -/
lemma frame_cmd_write_message_err_iff (data : Option (List Nat)) (len : Nat) :
    frame_cmd_write_message data len = FrameResult.err ↔
      len < PAYLOAD_MIN ∨ PAYLOAD_EV3_TO_SENSOR_MAX < len := by
  unfold frame_cmd_write_message
  split
  · rename_i hc; simp [hc]
  · rename_i hc
    split
    · simp [hc]
    · split
      · simp [hc]
      · simp [hc]

/-- Characterization of the error return of `frame_data_message`. -/
lemma frame_data_message_err_iff (mode : Nat) (data : Option (List Nat))
    (len : Nat) :
    frame_data_message mode data len = FrameResult.err ↔
      len < PAYLOAD_MIN ∨ PAYLOAD_SENSOR_TO_EV3_MAX < len := by
  unfold frame_data_message
  split
  · rename_i hc; simp [hc]
  · rename_i hc
    split
    · simp [hc]
    · split
      · simp [hc]
      · simp [hc]

/-- Characterization of the error return of `frame_info_message_name`. -/
lemma frame_info_message_name_err_iff (mode : Nat) (name : Option (List Nat)) :
    frame_info_message_name mode name = FrameResult.err ↔
      strlen name < PAYLOAD_MIN ∨ PAYLOAD_SENSOR_TO_EV3_MAX < strlen name := by
  unfold frame_info_message_name
  by_cases hlen : strlen name < PAYLOAD_MIN ∨ PAYLOAD_SENSOR_TO_EV3_MAX < strlen name
  · rw [if_pos hlen]
    simp [hlen]
  · rw [if_neg hlen]
    simp [hlen]

/-- Characterization of the error return of `frame_info_message_symbol`. -/
lemma frame_info_message_symbol_err_iff (mode : Nat)
    (symbol : Option (List Nat)) :
    frame_info_message_symbol mode symbol = FrameResult.err ↔
      strlen symbol < PAYLOAD_MIN ∨ SYMBOL_MAX < strlen symbol := by
  unfold frame_info_message_symbol
  by_cases hlen : strlen symbol < PAYLOAD_MIN ∨ SYMBOL_MAX < strlen symbol
  · rw [if_pos hlen]
    simp [hlen]
  · rw [if_neg hlen]
    simp [hlen]

/-- Length of the unchecksummed part of a write/data message body. -/
lemma data_body_length (tag : Nat) (d : List Nat) (len : Nat)
    (h : len ≤ d.length) :
    (tag :: (d.take len ++ insert_padding len)).length =
      0x01 + len + paddingSize len := by
  simp [insert_padding, List.length_take, Nat.min_eq_left h]
  omega

/-- Length of the unchecksummed part of an info-name message body. -/
lemma name_body_length (tag : Nat) (s : List Nat) :
    (tag :: 0x00 :: (s ++ insert_padding s.length)).length =
      0x02 + s.length + paddingSize s.length := by
  simp [insert_padding]
  omega

/-- Length of the unchecksummed part of an info-symbol message body. -/
lemma symbol_body_length (tag : Nat) (s : List Nat) :
    (tag :: 0x04 :: (s ++ List.replicate (0x08 - s.length) 0x00)).length =
      0x02 + s.length + (0x08 - s.length) := by
  simp
  omega

end Framing

end EV3UartGenerator

section Sanity

open EV3UartGenerator EV3UartGenerator.Framing

example : log2 1 = 0 := by decide
example : log2 5 = 3 := by decide
example : log2 32 = 5 := by decide
example : log2 255 = 8 := by decide
example : paddingSize 7 = 1 := by decide
example : frame_cmd_type_message 0x1d =
    (3, [0x40, 0x1d, 0xff ^^^ 0x40 ^^^ 0x1d]) := by decide
example : frame_info_message_symbol 0 (some [99, 111, 108]) =
    .ok 11 [0x98, 0x04, 99, 111, 108, 0, 0, 0, 0, 0,
            0xff ^^^ 0x98 ^^^ 0x04 ^^^ 99 ^^^ 111 ^^^ 108] := by decide
example : frame_info_message_name 0 (some (List.replicate 32 0x41)) =
    .ok 35 ([0xa8, 0x00] ++ List.replicate 32 0x41 ++ [0x57]) := by decide
example : frame_cmd_write_message none 1 = .ub := by decide
example : frame_cmd_write_message none 0 = .err := by decide

end Sanity

namespace EV3UartGenerator.Framing

set_option maxRecDepth 4000

/-- Exhaustive table check of `log2` against the ceiling-log characterization,
over its documented domain `[1, 255]`. -/
lemma log2_table : ∀ v, v < 256 → ∀ k, k < 9 →
    2 ^ k / 2 < v → v ≤ 2 ^ k → log2 v = k := by
  decide

/-- Exhaustive table check of the padding-size properties over `[1, 32]`. -/
lemma paddingSize_table : ∀ l, l < 33 → 1 ≤ l →
    (∃ k, k < 6 ∧ paddingSize l + l = 2 ^ k) ∧ paddingSize l < l ∧
    (paddingSize l = 0 ↔ ∃ k, k < 6 ∧ l = 2 ^ k) := by
  decide

/-- Claim C6: for every value in `[1, 255]`, `log2` returns `⌈log2 value⌉`,
i.e. it returns `k` for every value in the interval `(2^(k-1), 2^k]`
(the lower bound `2 ^ k / 2` is `2^(k-1)` for `k ≥ 1` and `0` for `k = 0`,
so value 1 maps to 0, 2 to 1, 3 and 4 to 2, 5 through 8 to 3, and so on up
to 255 mapping to 8). -/
theorem log2_is_ceil (v k : Nat) (h1 : 1 ≤ v) (h2 : v ≤ 255)
    (hlo : 2 ^ k / 2 < v) (hhi : v ≤ 2 ^ k) : log2 v = k := by
  have hk : k ≤ 8 := by
    by_contra hk
    push_neg at hk
    have h9 : (2 : Nat) ^ 9 ≤ 2 ^ k := Nat.pow_le_pow_right (by omega) (by omega)
    have hdiv : (2 : Nat) ^ 9 / 2 ≤ 2 ^ k / 2 := Nat.div_le_div_right h9
    have h256 : (2 : Nat) ^ 9 / 2 = 256 := by norm_num
    omega
  exact log2_table v (by omega) k (by omega) hlo hhi

/-- Claim C6 witness: `log2` maps 9 (in the interval `(8, 16]`) to 4. -/
theorem log2_is_ceil_witness : log2 9 = 4 :=
  log2_is_ceil 9 4 (by decide) (by decide) (by decide) (by decide)

/-- Claim C7: for every length in `[1, 32]`, the padding count computed by
`insert_padding`, `(1 <<< log2 len) - len`, makes padding plus length a
power of two, is strictly below the length (and non-negative, being a
`Nat`), and vanishes exactly when the length is itself a power of two. -/
theorem padding_properties (len : Nat) (h1 : 1 ≤ len) (h2 : len ≤ 32) :
    (∃ k, k < 6 ∧ paddingSize len + len = 2 ^ k) ∧
    paddingSize len < len ∧
    (paddingSize len = 0 ↔ ∃ k, k < 6 ∧ len = 2 ^ k) :=
  paddingSize_table len (by omega) h1

/-- Claim C7 witness: at length 5 the padding is 3, giving the power of
two 8, and is nonzero since 5 is not a power of two. -/
theorem padding_properties_witness :
    (∃ k, k < 6 ∧ paddingSize 5 + 5 = 2 ^ k) ∧
    paddingSize 5 < 5 ∧
    (paddingSize 5 = 0 ↔ ∃ k, k < 6 ∧ 5 = 2 ^ k) :=
  padding_properties 5 (by decide) (by decide)

/-- Claim C8: for every buffer and every in-range length `k`, the checksum
equals the iterative XOR of `0xff` with each of the first `k` bytes in
order (the left fold of XOR over them seeded with `0xff`), and the checksum
of zero bytes is `0xff`; the function is total, so it never fails. -/
theorem checksum_spec (buf : List Nat) (k : Nat) (h : k ≤ buf.length) :
    checksum buf k = (buf.take k).foldl (fun a b => a ^^^ b) 0xff ∧
    checksum buf 0 = 0xff :=
  ⟨checksum_take buf k h, rfl⟩

/-- Claim C8 witness: checksum of the first two bytes of `[1, 2, 3]`. -/
theorem checksum_spec_witness :
    checksum [1, 2, 3] 2 =
      ([1, 2, 3].take 2).foldl (fun a b => a ^^^ b) 0xff ∧
    checksum [1, 2, 3] 0 = 0xff :=
  checksum_spec [1, 2, 3] 2 (by decide)

/-- Claim C1 counterexample: `frame_sys_message` on the SYNC signal writes
the single byte `0x00`; the checksum over all its preceding bytes (none)
is `0xff`, so the final byte written is not that checksum and the claim
fails for `frame_sys_message`. -/
theorem sys_message_lacks_checksum :
    (frame_sys_message Magics.SYS_SYNC).2 = [0x00] ∧
    (frame_sys_message Magics.SYS_SYNC).2.getLast? = some 0x00 ∧
    checksum ((frame_sys_message Magics.SYS_SYNC).2.dropLast)
      ((frame_sys_message Magics.SYS_SYNC).2.length - 1) = 0xff ∧
    (0x00 : Nat) ≠ 0xff := by
  decide

/-- Claim C1 (amended): every frame encoder except `frame_sys_message`
(which emits a single tag byte and no checksum) writes, for every input its
validation accepts, a final byte equal to the checksum computed over all
preceding bytes of that message (tag byte through padding). -/
theorem checksum_is_final_byte :
    (∀ type, ∃ body, (frame_cmd_type_message type).2 =
        body ++ [checksum body body.length]) ∧
    (∀ modes ma, ∃ body, (frame_cmd_modes_message modes ma).2 =
        body ++ [checksum body body.length]) ∧
    (∀ speed, ∃ body, (frame_cmd_speed_message speed).2 =
        body ++ [checksum body body.length]) ∧
    (∀ mode, ∃ body, (frame_cmd_select_message mode).2 =
        body ++ [checksum body body.length]) ∧
    (∀ data len r bs, frame_cmd_write_message data len = FrameResult.ok r bs →
        ∃ body, bs = body ++ [checksum body body.length]) ∧
    (∀ mode name r bs,
        frame_info_message_name mode name = FrameResult.ok r bs →
        ∃ body, bs = body ++ [checksum body body.length]) ∧
    (∀ mode st lo hi, ∃ body, (frame_info_message_span mode st lo hi).2 =
        body ++ [checksum body body.length]) ∧
    (∀ mode sym r bs,
        frame_info_message_symbol mode sym = FrameResult.ok r bs →
        ∃ body, bs = body ++ [checksum body body.length]) ∧
    (∀ mode e dt w dec, ∃ body,
        (frame_info_message_format mode e dt w dec).2 =
        body ++ [checksum body body.length]) ∧
    (∀ mode data len r bs,
        frame_data_message mode data len = FrameResult.ok r bs →
        ∃ body, bs = body ++ [checksum body body.length]) := by
  refine ⟨fun type => ⟨_, rfl⟩, fun modes ma => ⟨_, rfl⟩,
    fun speed => ⟨_, rfl⟩, fun mode => ⟨_, rfl⟩, ?_, ?_,
    fun mode st lo hi => ⟨_, rfl⟩, ?_, fun mode e dt w dec => ⟨_, rfl⟩, ?_⟩
  · intro data len r bs h
    obtain ⟨d, -, -, -, hdl, -, hbs⟩ := frame_cmd_write_message_ok data len r bs h
    subst hbs
    refine ⟨(Magics.CMD_BASE ||| Magics.CMD_WRITE ||| length_code len) ::
      (d.take len ++ insert_padding len), ?_⟩
    rw [data_body_length _ d len hdl]
  · intro mode name r bs h
    obtain ⟨s, -, -, -, -, hbs⟩ := frame_info_message_name_ok mode name r bs h
    subst hbs
    refine ⟨(Magics.INFO_BASE ||| (0x07 &&& mode) ||| length_code s.length) ::
      0x00 :: (s ++ insert_padding s.length), ?_⟩
    rw [name_body_length]
  · intro mode sym r bs h
    obtain ⟨s, -, -, -, -, hbs⟩ := frame_info_message_symbol_ok mode sym r bs h
    subst hbs
    refine ⟨(Magics.INFO_BASE ||| (0x07 &&& mode) ||| length_code 0x08) ::
      0x04 :: (s ++ List.replicate (0x08 - s.length) 0x00), ?_⟩
    rw [symbol_body_length]
  · intro mode data len r bs h
    obtain ⟨d, -, -, -, hdl, -, hbs⟩ := frame_data_message_ok mode data len r bs h
    subst hbs
    refine ⟨(Magics.DATA_BASE ||| (0x07 &&& mode) ||| length_code len) ::
      (d.take len ++ insert_padding len), ?_⟩
    rw [data_body_length _ d len hdl]

/-- Claim C1 witness: a concrete write-data message whose final byte is the
checksum of the preceding two. -/
theorem checksum_is_final_byte_witness :
    ∃ body, ([0x44, 0x07, 0xbc] : List Nat) =
      body ++ [checksum body body.length] :=
  checksum_is_final_byte.2.2.2.2.1 (some [0x07]) 1 3 [0x44, 0x07, 0xbc]
    (by decide)

/-- Claim C2: the write-data encoder returns the error sentinel exactly when
`len` is outside `[1, 24]`, and the data encoder exactly when `len` is
outside `[1, 32]`; in particular both accept the boundary values and reject
0, 25 and 33 respectively. -/
theorem length_bounds_exact (data : Option (List Nat)) (mode len : Nat) :
    (frame_cmd_write_message data len = FrameResult.err ↔
      ¬(1 ≤ len ∧ len ≤ 24)) ∧
    (frame_data_message mode data len = FrameResult.err ↔
      ¬(1 ≤ len ∧ len ≤ 32)) := by
  constructor
  · rw [frame_cmd_write_message_err_iff]
    simp only [PAYLOAD_MIN, PAYLOAD_EV3_TO_SENSOR_MAX]
    omega
  · rw [frame_data_message_err_iff]
    simp only [PAYLOAD_MIN, PAYLOAD_SENSOR_TO_EV3_MAX]
    omega

/-- Claim C3 counterexample: `frame_cmd_write_message` performs no null
check, so with a null payload and the in-range length 1 it reaches the
`memcpy` from the null pointer (undefined behavior) instead of returning
the negative sentinel. -/
theorem write_null_not_rejected :
    frame_cmd_write_message none 1 = FrameResult.ub ∧
    frame_cmd_write_message none 1 ≠ FrameResult.err := by
  decide

/-- Claim C3 (amended): `frame_info_message_name` and
`frame_info_message_symbol` return the negative sentinel and write nothing
when the payload pointer is null; `frame_cmd_write_message` has no null
check — with a null payload it returns the sentinel exactly when `len` is
out of range, and otherwise hands the null pointer to `memcpy`. -/
theorem null_payload_handling (mode : Nat) :
    frame_info_message_name mode none = FrameResult.err ∧
    frame_info_message_symbol mode none = FrameResult.err ∧
    (∀ len, (¬(1 ≤ len ∧ len ≤ 24) →
        frame_cmd_write_message none len = FrameResult.err) ∧
      (1 ≤ len → len ≤ 24 →
        frame_cmd_write_message none len = FrameResult.ub)) := by
  refine ⟨?_, ?_, ?_⟩
  · exact (frame_info_message_name_err_iff mode none).mpr (Or.inl (by decide))
  · exact (frame_info_message_symbol_err_iff mode none).mpr (Or.inl (by decide))
  · intro len
    constructor
    · intro h
      refine (frame_cmd_write_message_err_iff none len).mpr ?_
      simp only [PAYLOAD_MIN, PAYLOAD_EV3_TO_SENSOR_MAX]
      omega
    · intro hl hu
      unfold frame_cmd_write_message
      rw [if_neg (by simp only [PAYLOAD_MIN, PAYLOAD_EV3_TO_SENSOR_MAX]; omega)]

/-- Claim C3 witness: concrete instances of the null-payload behaviors. -/
theorem null_payload_handling_witness :
    frame_cmd_write_message none 1 = FrameResult.ub :=
  ((null_payload_handling 0).2.2 1).2 (by decide) (by decide)

/-- Claim C4: each fallible encoder returns the negative sentinel (writing
nothing) on every input its validation rejects, and on success writes
exactly `N` bytes and returns that positive count `N`. -/
theorem validation_contract :
    (∀ data len, ((len < PAYLOAD_MIN ∨ PAYLOAD_EV3_TO_SENSOR_MAX < len) →
        frame_cmd_write_message data len = FrameResult.err) ∧
      ∀ r bs, frame_cmd_write_message data len = FrameResult.ok r bs →
        r = bs.length ∧ 0 < r) ∧
    (∀ mode name,
      ((strlen name < PAYLOAD_MIN ∨
          PAYLOAD_SENSOR_TO_EV3_MAX < strlen name) →
        frame_info_message_name mode name = FrameResult.err) ∧
      ∀ r bs, frame_info_message_name mode name = FrameResult.ok r bs →
        r = bs.length ∧ 0 < r) ∧
    (∀ mode sym,
      ((strlen sym < PAYLOAD_MIN ∨ SYMBOL_MAX < strlen sym) →
        frame_info_message_symbol mode sym = FrameResult.err) ∧
      ∀ r bs, frame_info_message_symbol mode sym = FrameResult.ok r bs →
        r = bs.length ∧ 0 < r) ∧
    (∀ mode data len,
      ((len < PAYLOAD_MIN ∨ PAYLOAD_SENSOR_TO_EV3_MAX < len) →
        frame_data_message mode data len = FrameResult.err) ∧
      ∀ r bs, frame_data_message mode data len = FrameResult.ok r bs →
        r = bs.length ∧ 0 < r) := by
  refine ⟨fun data len => ⟨fun h => ?_, fun r bs h => ?_⟩,
    fun mode name => ⟨fun h => ?_, fun r bs h => ?_⟩,
    fun mode sym => ⟨fun h => ?_, fun r bs h => ?_⟩,
    fun mode data len => ⟨fun h => ?_, fun r bs h => ?_⟩⟩
  · exact (frame_cmd_write_message_err_iff data len).mpr h
  · obtain ⟨d, -, -, -, hdl, hr, hbs⟩ :=
      frame_cmd_write_message_ok data len r bs h
    subst hbs hr
    have hblen := data_body_length
      (Magics.CMD_BASE ||| Magics.CMD_WRITE ||| length_code len) d len hdl
    constructor
    · rw [List.length_append, hblen]
      simp
      omega
    · omega
  · exact (frame_info_message_name_err_iff mode name).mpr h
  · obtain ⟨s, -, -, -, hr, hbs⟩ :=
      frame_info_message_name_ok mode name r bs h
    subst hbs hr
    have hblen := name_body_length
      (Magics.INFO_BASE ||| (0x07 &&& mode) ||| length_code s.length) s
    constructor
    · rw [List.length_append, hblen]
      simp
      omega
    · omega
  · exact (frame_info_message_symbol_err_iff mode sym).mpr h
  · obtain ⟨s, -, -, -, hr, hbs⟩ :=
      frame_info_message_symbol_ok mode sym r bs h
    subst hbs hr
    have hblen := symbol_body_length
      (Magics.INFO_BASE ||| (0x07 &&& mode) ||| length_code 0x08) s
    constructor
    · rw [List.length_append, hblen]
      simp
      omega
    · omega
  · exact (frame_data_message_err_iff mode data len).mpr h
  · obtain ⟨d, -, -, -, hdl, hr, hbs⟩ :=
      frame_data_message_ok mode data len r bs h
    subst hbs hr
    have hblen := data_body_length
      (Magics.DATA_BASE ||| (0x07 &&& mode) ||| length_code len) d len hdl
    constructor
    · rw [List.length_append, hblen]
      simp
      omega
    · omega

/-- Claim C4 witness: a concrete rejected call and a concrete successful
call of the write-data encoder. -/
theorem validation_contract_witness :
    frame_cmd_write_message (some [0x07]) 25 = FrameResult.err ∧
    (3 = ([0x44, 0x07, 0xbc] : List Nat).length ∧ 0 < 3) :=
  ⟨(validation_contract.1 (some [0x07]) 25).1 (by decide),
   (validation_contract.1 (some [0x07]) 1).2 3 [0x44, 0x07, 0xbc]
     (by decide)⟩

/-- Claim C5: for every mode and every non-null symbol of length in
`[1, 8]`, `frame_info_message_symbol` writes the tag byte with
`length_code 0x08` (computed as if the payload length were 8, regardless of
the actual symbol length), the subtype byte `0x04`, the symbol bytes,
exactly `8 - len` zero padding bytes (the flat fixed-width rule), then the
checksum, and returns 11. -/
theorem symbol_fixed_width_layout (mode : Nat) (s : List Nat)
    (h1 : 1 ≤ s.length) (h8 : s.length ≤ 8) :
    frame_info_message_symbol mode (some s) =
      FrameResult.ok 11
        (((Magics.INFO_BASE ||| (0x07 &&& mode) ||| length_code 0x08) ::
          0x04 :: (s ++ List.replicate (0x08 - s.length) 0x00)) ++
        [checksum
          ((Magics.INFO_BASE ||| (0x07 &&& mode) ||| length_code 0x08) ::
            0x04 :: (s ++ List.replicate (0x08 - s.length) 0x00))
          (0x02 + s.length + (0x08 - s.length))]) := by
  unfold frame_info_message_symbol
  simp only [strlen, Option.getD_some]
  rw [if_neg (by simp only [PAYLOAD_MIN, SYMBOL_MAX]; omega)]
  have h11 : 0x03 + s.length + (0x08 - s.length) = 11 := by omega
  rw [h11]

/-- Claim C5 witness: the 3-character symbol "col" yields an 11-byte
message with 5 zero padding bytes. -/
theorem symbol_fixed_width_layout_witness :
    frame_info_message_symbol 0 (some [99, 111, 108]) =
      FrameResult.ok 11
        (((Magics.INFO_BASE ||| (0x07 &&& 0) ||| length_code 0x08) ::
          0x04 :: ([99, 111, 108] ++
            List.replicate (0x08 - [99, 111, 108].length) 0x00)) ++
        [checksum
          ((Magics.INFO_BASE ||| (0x07 &&& 0) ||| length_code 0x08) ::
            0x04 :: ([99, 111, 108] ++
              List.replicate (0x08 - [99, 111, 108].length) 0x00))
          (0x02 + [99, 111, 108].length +
            (0x08 - [99, 111, 108].length))]) :=
  symbol_fixed_width_layout 0 [99, 111, 108] (by decide) (by decide)

/-- Claim C9 counterexample: `frame_info_message_name` with a 32-byte name
succeeds, writes 35 bytes and returns 35, which is not at most 34 and not
strictly less than `BUFFER_MIN`. -/
theorem info_name_returns_35 :
    frame_info_message_name 0 (some (List.replicate 32 0x41)) =
      FrameResult.ok 35 ([0xa8, 0x00] ++ List.replicate 32 0x41 ++ [0x57]) ∧
    ([0xa8, 0x00] ++ List.replicate 32 0x41 ++ [0x57]).length = 35 ∧
    ¬(35 ≤ 34) ∧ ¬(35 < BUFFER_MIN) := by
  decide

/-- Claim C9 (amended): for every encoder and every accepted input, the
returned byte count equals at most `BUFFER_MIN = 35` and so does the number
of bytes written (the bound 35 is attained, by `frame_info_message_name`
with a 32-byte name), so no successful encode call ever writes beyond a
35-byte destination buffer. -/
theorem encode_size_bounded :
    BUFFER_MIN = 35 ∧
    (∀ st, (frame_sys_message st).1 ≤ BUFFER_MIN ∧
      (frame_sys_message st).2.length ≤ BUFFER_MIN) ∧
    (∀ t, (frame_cmd_type_message t).1 ≤ BUFFER_MIN ∧
      (frame_cmd_type_message t).2.length ≤ BUFFER_MIN) ∧
    (∀ m ma, (frame_cmd_modes_message m ma).1 ≤ BUFFER_MIN ∧
      (frame_cmd_modes_message m ma).2.length ≤ BUFFER_MIN) ∧
    (∀ sp, (frame_cmd_speed_message sp).1 ≤ BUFFER_MIN ∧
      (frame_cmd_speed_message sp).2.length ≤ BUFFER_MIN) ∧
    (∀ m, (frame_cmd_select_message m).1 ≤ BUFFER_MIN ∧
      (frame_cmd_select_message m).2.length ≤ BUFFER_MIN) ∧
    (∀ m st lo hi, (frame_info_message_span m st lo hi).1 ≤ BUFFER_MIN ∧
      (frame_info_message_span m st lo hi).2.length ≤ BUFFER_MIN) ∧
    (∀ m e dt w dec, (frame_info_message_format m e dt w dec).1 ≤ BUFFER_MIN ∧
      (frame_info_message_format m e dt w dec).2.length ≤ BUFFER_MIN) ∧
    (∀ data len r bs, frame_cmd_write_message data len = FrameResult.ok r bs →
      r ≤ BUFFER_MIN ∧ bs.length ≤ BUFFER_MIN) ∧
    (∀ mode name r bs,
      frame_info_message_name mode name = FrameResult.ok r bs →
      r ≤ BUFFER_MIN ∧ bs.length ≤ BUFFER_MIN) ∧
    (∀ mode sym r bs,
      frame_info_message_symbol mode sym = FrameResult.ok r bs →
      r ≤ BUFFER_MIN ∧ bs.length ≤ BUFFER_MIN) ∧
    (∀ mode data len r bs,
      frame_data_message mode data len = FrameResult.ok r bs →
      r ≤ BUFFER_MIN ∧ bs.length ≤ BUFFER_MIN) := by
  refine ⟨rfl, fun st => by simp [frame_sys_message, BUFFER_MIN],
    fun t => by simp [frame_cmd_type_message, BUFFER_MIN],
    fun m ma => by simp [frame_cmd_modes_message, BUFFER_MIN],
    fun sp => by simp [frame_cmd_speed_message, htole32, BUFFER_MIN],
    fun m => by simp [frame_cmd_select_message, BUFFER_MIN],
    fun m st lo hi => by simp [frame_info_message_span, htole32, BUFFER_MIN],
    fun m e dt w dec => by simp [frame_info_message_format, BUFFER_MIN],
    ?_, ?_, ?_, ?_⟩
  · intro data len r bs h
    obtain ⟨d, -, hmin, hmax, hdl, hr, hbs⟩ :=
      frame_cmd_write_message_ok data len r bs h
    have h1 : 1 ≤ len := hmin
    have h2 : len ≤ 24 := hmax
    have hp := len_pad_bound len (by omega) h1
    have hblen := data_body_length
      (Magics.CMD_BASE ||| Magics.CMD_WRITE ||| length_code len) d len hdl
    subst hbs hr
    constructor
    · simp only [BUFFER_MIN]
      omega
    · rw [List.length_append, hblen]
      simp only [List.length_singleton, BUFFER_MIN]
      omega
  · intro mode name r bs h
    obtain ⟨s, -, hmin, hmax, hr, hbs⟩ :=
      frame_info_message_name_ok mode name r bs h
    have h1 : 1 ≤ s.length := hmin
    have h2 : s.length ≤ 32 := hmax
    have hp := len_pad_bound s.length (by omega) h1
    have hblen := name_body_length
      (Magics.INFO_BASE ||| (0x07 &&& mode) ||| length_code s.length) s
    subst hbs hr
    constructor
    · simp only [BUFFER_MIN]
      omega
    · rw [List.length_append, hblen]
      simp only [List.length_singleton, BUFFER_MIN]
      omega
  · intro mode sym r bs h
    obtain ⟨s, -, hmin, hmax, hr, hbs⟩ :=
      frame_info_message_symbol_ok mode sym r bs h
    have h1 : 1 ≤ s.length := hmin
    have h2 : s.length ≤ 8 := hmax
    have hblen := symbol_body_length
      (Magics.INFO_BASE ||| (0x07 &&& mode) ||| length_code 0x08) s
    subst hbs hr
    constructor
    · simp only [BUFFER_MIN]
      omega
    · rw [List.length_append, hblen]
      simp only [List.length_singleton, BUFFER_MIN]
      omega
  · intro mode data len r bs h
    obtain ⟨d, -, hmin, hmax, hdl, hr, hbs⟩ :=
      frame_data_message_ok mode data len r bs h
    have h1 : 1 ≤ len := hmin
    have h2 : len ≤ 32 := hmax
    have hp := len_pad_bound len (by omega) h1
    have hblen := data_body_length
      (Magics.DATA_BASE ||| (0x07 &&& mode) ||| length_code len) d len hdl
    subst hbs hr
    constructor
    · simp only [BUFFER_MIN]
      omega
    · rw [List.length_append, hblen]
      simp only [List.length_singleton, BUFFER_MIN]
      omega

/-- Claim C9 witness: a concrete successful write-data call stays within
the 35-byte bound. -/
theorem encode_size_bounded_witness :
    3 ≤ BUFFER_MIN ∧ ([0x44, 0x07, 0xbc] : List Nat).length ≤ BUFFER_MIN :=
  encode_size_bounded.2.2.2.2.2.2.2.2.1 (some [0x07]) 1 3 [0x44, 0x07, 0xbc]
    (by decide)

/-- Claim C10: for every checksum-bearing encoder (all except
`frame_sys_message`) and every accepted input, the XOR of all bytes the
call writes — tag byte through checksum byte — equals `0xff`, the
receiver-side verification invariant. -/
theorem framed_xor_invariant :
    (∀ t, ((frame_cmd_type_message t).2).foldl (fun a b => a ^^^ b) 0 =
      0xff) ∧
    (∀ m ma, ((frame_cmd_modes_message m ma).2).foldl
      (fun a b => a ^^^ b) 0 = 0xff) ∧
    (∀ sp, ((frame_cmd_speed_message sp).2).foldl
      (fun a b => a ^^^ b) 0 = 0xff) ∧
    (∀ m, ((frame_cmd_select_message m).2).foldl
      (fun a b => a ^^^ b) 0 = 0xff) ∧
    (∀ m st lo hi, ((frame_info_message_span m st lo hi).2).foldl
      (fun a b => a ^^^ b) 0 = 0xff) ∧
    (∀ m e dt w dec, ((frame_info_message_format m e dt w dec).2).foldl
      (fun a b => a ^^^ b) 0 = 0xff) ∧
    (∀ data len r bs, frame_cmd_write_message data len = FrameResult.ok r bs →
      bs.foldl (fun a b => a ^^^ b) 0 = 0xff) ∧
    (∀ mode name r bs,
      frame_info_message_name mode name = FrameResult.ok r bs →
      bs.foldl (fun a b => a ^^^ b) 0 = 0xff) ∧
    (∀ mode sym r bs,
      frame_info_message_symbol mode sym = FrameResult.ok r bs →
      bs.foldl (fun a b => a ^^^ b) 0 = 0xff) ∧
    (∀ mode data len r bs,
      frame_data_message mode data len = FrameResult.ok r bs →
      bs.foldl (fun a b => a ^^^ b) 0 = 0xff) := by
  refine ⟨fun t => xorfold_body_checksum _ 0x02 rfl,
    fun m ma => xorfold_body_checksum _ 0x03 rfl,
    fun sp => xorfold_body_checksum _ 0x05 rfl,
    fun m => xorfold_body_checksum _ 0x02 rfl,
    fun m st lo hi => xorfold_body_checksum _ 0x0a rfl,
    fun m e dt w dec => xorfold_body_checksum _ (0x02 + 0x04) rfl,
    ?_, ?_, ?_, ?_⟩
  · intro data len r bs h
    obtain ⟨d, -, -, -, hdl, -, hbs⟩ :=
      frame_cmd_write_message_ok data len r bs h
    subst hbs
    exact xorfold_body_checksum _ _ (data_body_length _ d len hdl).symm
  · intro mode name r bs h
    obtain ⟨s, -, -, -, -, hbs⟩ := frame_info_message_name_ok mode name r bs h
    subst hbs
    exact xorfold_body_checksum _ _ (name_body_length _ s).symm
  · intro mode sym r bs h
    obtain ⟨s, -, -, -, -, hbs⟩ := frame_info_message_symbol_ok mode sym r bs h
    subst hbs
    exact xorfold_body_checksum _ _ (symbol_body_length _ s).symm
  · intro mode data len r bs h
    obtain ⟨d, -, -, -, hdl, -, hbs⟩ :=
      frame_data_message_ok mode data len r bs h
    subst hbs
    exact xorfold_body_checksum _ _ (data_body_length _ d len hdl).symm

/-- Claim C10 witness: the XOR of the three bytes of a concrete write-data
message is `0xff`. -/
theorem framed_xor_invariant_witness :
    ([0x44, 0x07, 0xbc] : List Nat).foldl (fun a b => a ^^^ b) 0 = 0xff :=
  framed_xor_invariant.2.2.2.2.2.2.1 (some [0x07]) 1 3 [0x44, 0x07, 0xbc]
    (by decide)

end EV3UartGenerator.Framing
